import Mathlib

/-!
Verification of `routemap_optimize.py` (route-map optimizer).

The development shallowly embeds the algorithmic parts of the repository:
the geocoder result handling (`geocode_address`), the pairwise distance
matrix (`compute_distance_matrix`, `create_data_model`) and the
simulated-annealing TSP solver with fixed endpoints (`tsp_solver`).

Modelling conventions:
* Python floats are modelled as exact rationals (`ℚ`).  The two
  transcendental ingredients — `geopy.distance.geodesic` and the nested
  Euclidean `distance` (which takes a square root) — are abstracted as
  function parameters `geod` and `dist`; every theorem holds for every
  choice of these parameters, hence in particular for the actual metrics.
  Likewise `python_math.exp` is abstracted as a parameter `pexp`.
* The pseudo-random source `random2` is modelled by an explicit oracle
  recording the outcomes of its calls: the result of the initial
  `shuffle`, the outcome of each `sample` in the loop, and the stream of
  `random()` uniforms (indexed by how many uniforms were consumed so far,
  so that the number of draws is observable).
* Runtime faults of the Python code are modelled by `Except`:
  `random2.sample(pop, 2)` raises `ValueError` when `pop` has fewer than
  two elements, float division by zero raises `ZeroDivisionError`, and
  indexing an empty list raises `IndexError`.
-/

namespace RouteMap

/-- A waypoint: a `(latitude, longitude)` pair, floats modelled as `ℚ`. -/
abbrev Point : Type := ℚ × ℚ

/-! ### Geocoder (`geocode_address`) -/

/-- One element of the `features` array of a Photon API response.
`coordinates` is the GeoJSON coordinate pair of `feature['geometry']`:
component `.1` is the element at position 0 (the longitude) and component
`.2` is the element at position 1 (the latitude). -/
structure GeoFeature where
  coordinates : ℚ × ℚ
  deriving DecidableEq

/-- The part of an HTTP response inspected by `geocode_address`:
the status code and the parsed JSON body's `features` array. -/
structure GeoResponse where
  status_code : Nat
  features : List GeoFeature
  deriving DecidableEq

/-- `geocode_address` from the source: on a 200 response whose `features`
array is non-empty (Python truthiness of the list) it returns the triple
`(address, coordinates[1], coordinates[0])` built from the first feature;
in every other case it falls through to `return None`. -/
def geocode_address (address : String) (resp : GeoResponse) :
    Option (String × ℚ × ℚ) :=
  if resp.status_code = 200 then
    match resp.features with
    | [] => none
    | first_result :: _ =>
        some (address, first_result.coordinates.2, first_result.coordinates.1)
  else none

/-! ### Distance matrix (`compute_distance_matrix`, `create_data_model`) -/

/-- Read entry `m[i][j]` of a matrix stored as a list of rows
(out-of-range reads default to `0`; all uses are in range). -/
def getEntry (m : List (List ℚ)) (i j : Nat) : ℚ :=
  (m.getD i []).getD j 0

/-- Write entry `m[i][j] := v` (a no-op when out of range, exactly like
`List.set`; all uses are in range). -/
def setEntry (m : List (List ℚ)) (i j : Nat) (v : ℚ) : List (List ℚ) :=
  m.set i ((m.getD i []).set j v)

/-- `compute_distance_matrix` from the source: start from an `n × n` zero
matrix and, for `i in range(n)` and `j in range(i, n)`, store
`geodesic(locations[i], locations[j])` into both `[i][j]` and `[j][i]`.
The geodesic metric itself is the abstracted parameter `geod`. -/
def compute_distance_matrix (geod : Point → Point → ℚ) (locations : List Point) :
    List (List ℚ) :=
  let n := locations.length
  (List.range n).foldl
    (fun m i =>
      (List.range' i (n - i)).foldl
        (fun m' j =>
          let dval := geod (locations.getD i (0, 0)) (locations.getD j (0, 0))
          setEntry (setEntry m' i j dval) j i dval)
        m)
    (List.replicate n (List.replicate n 0))

/-- The dictionary built by `create_data_model`. -/
structure DataModel where
  locations : List Point
  num_locations : Nat
  distance_matrix : List (List ℚ)
  deriving DecidableEq

/-- `create_data_model` from the source. -/
def create_data_model (geod : Point → Point → ℚ) (locations : List Point) :
    DataModel :=
  { locations := locations
    num_locations := locations.length
    distance_matrix := compute_distance_matrix geod locations }

/-! ### The simulated-annealing solver (`tsp_solver`) -/

/-- Python runtime faults that the solver can raise. -/
inductive PyError where
  | valueError
  | zeroDivisionError
  | indexError
  deriving DecidableEq

instance {ε α : Type*} [DecidableEq ε] [DecidableEq α] : DecidableEq (Except ε α) := fun a b =>
  match a, b with
  | .error e, .error f =>
      if h : e = f then isTrue (by rw [h]) else isFalse (fun hc => h (by cases hc; rfl))
  | .error _, .ok _ => isFalse (fun hc => by cases hc)
  | .ok _, .error _ => isFalse (fun hc => by cases hc)
  | .ok a, .ok b =>
      if h : a = b then isTrue (by rw [h]) else isFalse (fun hc => h (by cases hc; rfl))

/-- Recorded outcomes of the `random2` calls made by one solver run. -/
structure Oracle where
  /-- The interior index list after `random2.shuffle` (a permutation of
  `range(len(intermediate_points))`). -/
  shuffled : List Nat
  /-- Randomness determining the first index of `random2.sample(range(1, n-1), 2)`
  at loop iteration `t`. -/
  sampleA : Nat → Nat
  /-- Randomness determining the second index of the same `sample` call. -/
  sampleB : Nat → Nat
  /-- The value of the `k`-th call to `random2.random()` of the run. -/
  uniform : Nat → ℚ

/-- The mutable loop state of `tsp_solver`, plus the count of uniforms
drawn so far (observable consumption of `random2.random()`). -/
structure SAState where
  current_solution : List Nat
  current_distance : ℚ
  best_solution : List Nat
  best_distance : ℚ
  draws : Nat
  deriving DecidableEq

/-- Tour length of an index sequence: the source's
`sum(distance(locations[sol[i-1]], locations[sol[i]]) for i in range(1, len(sol)))`,
i.e. the sum of `dist` over consecutive pairs. -/
def solution_distance (dist : Point → Point → ℚ) (locations : List Point) :
    List Nat → ℚ
  | i :: j :: rest =>
      dist (locations.getD i (0, 0)) (locations.getD j (0, 0)) +
        solution_distance dist locations (j :: rest)
  | _ => 0

/-- The simultaneous assignment
`new[i], new[j] = new[j], new[i]`: both right-hand sides are read from the
original list before writing. -/
def swapAt (l : List Nat) (i j : Nat) : List Nat :=
  (l.set i (l.getD j 0)).set j (l.getD i 0)

/-- Outcome of `random2.sample(range(1, n - 1), 2)` at one loop iteration,
driven by the oracle values `a` and `b`: two distinct, uniformly reachable
positions in `[1, n-2]`.  (The caller checks that the population has at
least two elements; this function is only evaluated when `n ≥ 4`.) -/
def samplePair (n a b : Nat) : Nat × Nat :=
  (1 + a % (n - 2),
    if 1 + b % (n - 3) < 1 + a % (n - 2) then 1 + b % (n - 3)
    else 1 + b % (n - 3) + 1)

/-- The acceptance test
`delta < 0 or random2.random() < python_math.exp(-delta / temp)` with
Python's short-circuit `or`: when `delta < 0` the uniform is not drawn at
all; otherwise the division `-delta / temp` raises `ZeroDivisionError`
when `temp = 0`, and else one uniform `u` is consumed and compared.
Returns the decision together with whether a uniform was consumed. -/
def sa_accept (pexp : ℚ → ℚ) (delta temp u : ℚ) : Except PyError (Bool × Bool) :=
  if delta < 0 then .ok (true, false)
  else if temp = 0 then .error .zeroDivisionError
  else .ok (u < pexp (-delta / temp), true)

/-- The proposed neighbour of iteration `t`: the current solution with
the two sampled interior positions swapped
(`new_solution[i], new_solution[j] = new_solution[j], new_solution[i]`). -/
def sa_proposed (num_locations : Nat) (rnd : Oracle) (t : Nat) (cur : List Nat) : List Nat :=
  swapAt cur (samplePair num_locations (rnd.sampleA t) (rnd.sampleB t)).1
    (samplePair num_locations (rnd.sampleA t) (rnd.sampleB t)).2

/-- End of one loop iteration: the (possibly replaced) current solution
`cur` with distance `curd`, and the best-so-far update
`if current_distance < best_distance: best = current`. -/
def sa_update (s : SAState) (cur : List Nat) (curd : ℚ) (draws' : Nat) : SAState :=
  if curd < s.best_distance then ⟨cur, curd, cur, curd, draws'⟩
  else ⟨cur, curd, s.best_solution, s.best_distance, draws'⟩

/-- One iteration `t` of the annealing loop of `tsp_solver`:
`random2.sample` raises `ValueError` when `range(1, num_locations - 1)`
has fewer than two elements; otherwise the proposal is evaluated and the
acceptance test decides whether it replaces the current solution. -/
def sa_step (dist : Point → Point → ℚ) (pexp : ℚ → ℚ)
    (locations : List Point) (num_locations : Nat) (rnd : Oracle)
    (temperature cooling_rate : ℚ) (t : Nat) (s : SAState) :
    Except PyError SAState :=
  if num_locations - 2 < 2 then
    .error .valueError
  else
    match sa_accept pexp
        (solution_distance dist locations (sa_proposed num_locations rnd t s.current_solution) -
          s.current_distance)
        (temperature * cooling_rate ^ t) (rnd.uniform s.draws) with
    | .error e => .error e
    | .ok (acc, drew) =>
        .ok (sa_update s
          (if acc then sa_proposed num_locations rnd t s.current_solution
            else s.current_solution)
          (if acc then
              solution_distance dist locations (sa_proposed num_locations rnd t s.current_solution)
            else s.current_distance)
          (s.draws + (if drew then 1 else 0)))

/-- The annealing loop: `k` remaining iterations, the next one carrying
index `t`.  An iteration that raises aborts the run. -/
def sa_loop (dist : Point → Point → ℚ) (pexp : ℚ → ℚ)
    (locations : List Point) (num_locations : Nat) (rnd : Oracle)
    (temperature cooling_rate : ℚ) : Nat → Nat → SAState → Except PyError SAState
  | _, 0, s => .ok s
  | t, k + 1, s =>
      match sa_step dist pexp locations num_locations rnd temperature cooling_rate t s with
      | .error e => .error e
      | .ok s' => sa_loop dist pexp locations num_locations rnd temperature cooling_rate (t + 1) k s'

/-- The initial index sequence
`[0] + [i + 1 for i in shuffled(range(len(locations[1:-1])))] + [num_locations - 1]`. -/
def sa_initial (num_locations : Nat) (rnd : Oracle) : List Nat :=
  0 :: (rnd.shuffled.map (· + 1) ++ [num_locations - 1])

/-- The part of `tsp_solver` before the loop: `locations[0]` raises
`IndexError` on an empty list; otherwise the current solution is the
shuffled initial sequence with its distance, and `best` starts as a copy
of `current`.  No uniform has been drawn yet. -/
def sa_init (dist : Point → Point → ℚ) (locations : List Point)
    (num_locations : Nat) (rnd : Oracle) : Except PyError SAState :=
  match locations with
  | [] => .error .indexError
  | _ :: _ =>
      .ok ⟨sa_initial num_locations rnd,
        solution_distance dist locations (sa_initial num_locations rnd),
        sa_initial num_locations rnd,
        solution_distance dist locations (sa_initial num_locations rnd), 0⟩

/-- The whole run of `tsp_solver` on the index level: initial solution,
then `k` loop iterations starting at iteration index 0; the final state
(including `best_solution` and `best_distance`) is returned. -/
def sa_run (dist : Point → Point → ℚ) (pexp : ℚ → ℚ)
    (locations : List Point) (num_locations : Nat) (rnd : Oracle)
    (temperature cooling_rate : ℚ) (k : Nat) : Except PyError SAState :=
  match sa_init dist locations num_locations rnd with
  | .error e => .error e
  | .ok s0 => sa_loop dist pexp locations num_locations rnd temperature cooling_rate 0 k s0

/-- `tsp_solver` from the source: it reads `num_locations` and `locations`
out of the data model (and nothing else — in particular never
`distance_matrix`), runs the annealing loop `iterations` times (Python's
`range` over a negative count is empty, hence `Int.toNat`), and returns
`[locations[i] for i in best_solution]`. -/
def tsp_solver (dist : Point → Point → ℚ) (pexp : ℚ → ℚ)
    (data_model : DataModel) (rnd : Oracle)
    (iterations : Int) (temperature cooling_rate : ℚ) :
    Except PyError (List Point) :=
  match sa_run dist pexp data_model.locations data_model.num_locations rnd
      temperature cooling_rate iterations.toNat with
  | .error e => .error e
  | .ok s => .ok (s.best_solution.map (fun i => data_model.locations.getD i (0, 0)))

/-- Modelled from the spec: the RouteEvaluator reading distances from a
precomputed DistanceMatrix — "return the sum of consecutive-pair
distances, `Σ d(tour[i-1], tour[i])`" with `d(a, b)` looked up as
`matrix[a][b]`.  The repository's `tsp_solver` never reads the matrix;
this definition exists to state the claim that compares the solver's
tour lengths with matrix-based ones. -/
def matrix_route_length (matrix : List (List ℚ)) : List Nat → ℚ
  | i :: j :: rest => getEntry matrix i j + matrix_route_length matrix (j :: rest)
  | _ => 0

/-- A stand-in for the geodesic metric in concrete examples: `0` on equal
points and `555` otherwise.  (The true geodesic between the sample points
`(0,0)` and `(3,4)` is about 555.8 km; for the theorems below only
`geodEx p p = 0` and the fact that its values differ from the solver's
internal metric matter.) -/
def geodEx : Point → Point → ℚ := fun p q => if p = q then 0 else 555

/-- A stand-in for `python_math.exp` in concrete runs.  Every solver
theorem below holds for every `pexp`; the concrete runs below never
depend on its value (improving moves short-circuit past it, and a `0`
value makes the rejection branch concrete). -/
def pexp0 : ℚ → ℚ := fun _ => 0

/-- The two sample waypoints `(0,0)` and `(3,4)`: their exact Euclidean
distance is `sqrt(3^2 + 4^2) = 5`. -/
def locs2 : List Point := [(0, 0), (3, 4)]

/-- Three collinear Pythagorean waypoints: consecutive Euclidean
distances are exactly `5`. -/
def locs3 : List Point := [(0, 0), (3, 4), (6, 8)]

/-- Four generic waypoints for `n = 4` runs. -/
def locs4 : List Point := [(0, 0), (1, 1), (2, 2), (3, 3)]

/-- The solver's internal Euclidean metric evaluated on the pairs of
`locs2`/`locs3` that concrete runs use: every consecutive pair there is
at exact Euclidean distance `5` (3-4-5 triangles), and the metric is `0`
on equal points. -/
def distEx : Point → Point → ℚ := fun p q => if p = q then 0 else 5

/-- A constant metric (all distinct pairs at distance 1), standing in for
the internal metric in runs where only comparisons of equal tour lengths
matter (`delta = 0`). -/
def distConst : Point → Point → ℚ := fun _ _ => 1

/-- Four collinear waypoints on the y-axis, ordered so that the first
interior swap is strictly improving: visiting order 0→1→2→3 covers
`5 + 4 + 5 = 14`, while swapping the interior to 0→2→1→3 covers
`1 + 4 + 1 = 6`. -/
def locsLine : List Point := [(0, 0), (0, 5), (0, 1), (0, 6)]

/-- The solver's hard-coded Euclidean metric evaluated exactly on points
that share an x-coordinate (as all of `locsLine` do):
`sqrt((x - x)^2 + (y1 - y2)^2) = |y1 - y2|`, with no rounding — these
distances are small integers, exact in floating point too. -/
def distLine : Point → Point → ℚ := fun p q => |p.2 - q.2|

/-- Oracle for `n = 2` runs: the interior is empty, so `shuffle` returns
the empty list. -/
def oracleEx : Oracle := ⟨[], fun _ => 0, fun _ => 0, fun _ => 0⟩

/-- Oracle for `n = 3` runs: the single interior index is `[0]`. -/
def oracle3 : Oracle := ⟨[0], fun _ => 0, fun _ => 0, fun _ => 0⟩

/-- Oracle for `n = 4` runs: identity shuffle of the two interior
indices, sampler randomness 0 (which selects the swap (1, 2)), and all
uniforms 0. -/
def oracle4 : Oracle := ⟨[0, 1], fun _ => 0, fun _ => 0, fun _ => 0⟩

/-- The data model the application builds for the two sample waypoints:
its `distance_matrix` holds the geodesic values (here `geodEx`, giving
`matrix[0][1] = 555`), while the solver's internal metric gives `5`. -/
def dmEx : DataModel := create_data_model geodEx locs2

/-- The dimension-plus-symmetry-plus-zero-diagonal invariant maintained
while `compute_distance_matrix` fills its matrix. -/
def MatP (n : Nat) (m : List (List ℚ)) : Prop :=
  m.length = n ∧ (∀ row ∈ m, row.length = n) ∧
    (∀ a b, getEntry m a b = getEntry m b a) ∧ (∀ a, getEntry m a a = 0)

/-! ### Helper lemmas -/

theorem foldl_inv {α β : Type*} (P : β → Prop) (f : β → α → β) :
    ∀ (l : List α) (b : β), (∀ x ∈ l, ∀ m, P m → P (f m x)) → P b → P (l.foldl f b)
  | [], _, _, hb => hb
  | x :: xs, b, h, hb =>
      foldl_inv P f xs (f b x)
        (fun y hy m hm => h y (List.mem_cons_of_mem _ hy) m hm)
        (h x (List.mem_cons_self _ _) b hb)

theorem getD_set {α : Type*} (l : List α) (i x : Nat) (v d : α) :
    (l.set i v).getD x d = if i = x ∧ i < l.length then v else l.getD x d := by
  simp only [List.getD_eq_getElem?_getD, List.getElem?_set]
  by_cases h : i = x
  · subst h
    by_cases hl : i < l.length
    · simp [hl]
    · simp [hl, List.getElem?_eq_none (Nat.le_of_not_lt hl)]
  · simp [h]

theorem getEntry_setEntry (m : List (List ℚ)) (i j : Nat) (v : ℚ) (x y : Nat) :
    getEntry (setEntry m i j v) x y =
      if i = x ∧ j = y ∧ i < m.length ∧ j < (m.getD i []).length then v
      else getEntry m x y := by
  unfold getEntry setEntry
  rw [getD_set]
  by_cases hx : i = x ∧ i < m.length
  · rw [if_pos hx]
    obtain ⟨hx1, hx2⟩ := hx
    subst hx1
    rw [getD_set]
    by_cases hy : j = y ∧ j < (m.getD i []).length
    · rw [if_pos hy, if_pos ⟨rfl, hy.1, hx2, hy.2⟩]
    · rw [if_neg hy, if_neg]
      intro hc
      exact hy ⟨hc.2.1, hc.2.2.2⟩
  · rw [if_neg hx, if_neg]
    intro hc
    exact hx ⟨hc.1, hc.2.2.1⟩

theorem getD_mem_of_lt {α : Type*} (l : List α) (i : Nat) (d : α) (h : i < l.length) :
    l.getD i d ∈ l := by
  rw [List.getD_eq_getElem?_getD, List.getElem?_eq_getElem h]
  exact List.getElem_mem _

theorem setEntry_dims {n : Nat} {m : List (List ℚ)} (hlen : m.length = n)
    (hrow : ∀ row ∈ m, row.length = n) (i j : Nat) (v : ℚ) :
    (setEntry m i j v).length = n ∧ ∀ row ∈ setEntry m i j v, row.length = n := by
  constructor
  · simpa [setEntry] using hlen
  · intro row hmem
    by_cases hi : i < m.length
    · rcases List.mem_or_eq_of_mem_set hmem with h | h
      · exact hrow row h
      · subst h
        simpa using hrow _ (getD_mem_of_lt m i [] hi)
    · rw [setEntry, List.set_eq_of_length_le (Nat.le_of_not_lt hi)] at hmem
      exact hrow row hmem

theorem getEntry_setEntry_of {n : Nat} {m : List (List ℚ)} (hlen : m.length = n)
    (hrow : ∀ row ∈ m, row.length = n) {i j : Nat} (hi : i < n) (hj : j < n)
    (v : ℚ) (x y : Nat) :
    getEntry (setEntry m i j v) x y = if i = x ∧ j = y then v else getEntry m x y := by
  rw [getEntry_setEntry]
  have h1 : i < m.length := by omega
  have h2 : j < (m.getD i []).length := by
    rw [hrow _ (getD_mem_of_lt m i [] h1)]
    exact hj
  by_cases h : i = x ∧ j = y
  · rw [if_pos ⟨h.1, h.2, h1, h2⟩, if_pos h]
  · rw [if_neg (fun hc => h ⟨hc.1, hc.2.1⟩), if_neg h]

theorem MatP_write {n : Nat} {m : List (List ℚ)} (i j : Nat) (v : ℚ)
    (hi : i < n) (hj : j < n) (hd : i = j → v = 0) (h : MatP n m) :
    MatP n (setEntry (setEntry m i j v) j i v) := by
  obtain ⟨hlen, hrow, hsym, hdiag⟩ := h
  have d1 := setEntry_dims hlen hrow i j v
  have d2 := setEntry_dims d1.1 d1.2 j i v
  refine ⟨d2.1, d2.2, ?_, ?_⟩
  · intro a b
    rw [getEntry_setEntry_of d1.1 d1.2 hj hi, getEntry_setEntry_of d1.1 d1.2 hj hi,
      getEntry_setEntry_of hlen hrow hi hj, getEntry_setEntry_of hlen hrow hi hj]
    by_cases hab : j = a ∧ i = b
    · by_cases hba : j = b ∧ i = a
      · simp [hab, hba]
      · simp only [if_pos hab, if_neg hba]
        by_cases hab2 : i = b ∧ j = a
        · simp [hab2]
        · exact absurd ⟨hab.2, hab.1⟩ hab2
    · rw [if_neg hab]
      by_cases hba : j = b ∧ i = a
      · rw [if_pos hba, if_pos ⟨hba.2, hba.1⟩]
      · rw [if_neg hba, if_neg (fun hc => hba ⟨hc.2, hc.1⟩),
          if_neg (fun hc => hab ⟨hc.2, hc.1⟩)]
        exact hsym a b
  · intro a
    rw [getEntry_setEntry_of d1.1 d1.2 hj hi, getEntry_setEntry_of hlen hrow hi hj]
    by_cases h1 : j = a ∧ i = a
    · rw [if_pos h1]
      exact hd (h1.2.trans h1.1.symm)
    · rw [if_neg h1]
      by_cases h2 : i = a ∧ j = a
      · rw [if_pos h2]
        exact hd (h2.1.trans h2.2.symm)
      · rw [if_neg h2]
        exact hdiag a

theorem MatP_compute_distance_matrix (geod : Point → Point → ℚ)
    (hg : ∀ p, geod p p = 0) (locations : List Point) :
    MatP locations.length (compute_distance_matrix geod locations) := by
  unfold compute_distance_matrix
  apply foldl_inv (MatP locations.length)
  · intro i hi m hm
    have hi' : i < locations.length := List.mem_range.mp hi
    apply foldl_inv (MatP locations.length)
    · intro j hj m' hm'
      have hj' : i ≤ j ∧ j < i + (locations.length - i) := List.mem_range'_1.mp hj
      refine MatP_write i j _ hi' (by omega) ?_ hm'
      intro hij
      subst hij
      exact hg _
    · exact hm
  · refine ⟨by simp, fun row hr => by simpa using (List.eq_of_mem_replicate hr) ▸ (by simp), ?_, ?_⟩
    · intro a b
      simp [getEntry, List.getD_eq_getElem?_getD, List.getElem?_replicate]
      by_cases ha : a < locations.length <;> by_cases hb : b < locations.length <;>
        simp [ha, hb]
    · intro a
      simp [getEntry, List.getD_eq_getElem?_getD, List.getElem?_replicate]
      by_cases ha : a < locations.length <;> simp [ha]

/-! ### Claim theorems: distance matrix and geocoder -/

/-- C9: for every list of `n` waypoints, `compute_distance_matrix`
produces an `n × n` table with `matrix[i][j] = matrix[j][i]` for all
`i, j` (by construction of the mirroring, for any distance function) and
`matrix[i][i] = 0` (the geodesic of a point with itself, here the
hypothesis `geod p p = 0`). -/
theorem compute_distance_matrix_spec (geod : Point → Point → ℚ)
    (hg : ∀ p, geod p p = 0) (locations : List Point) :
    (compute_distance_matrix geod locations).length = locations.length ∧
    (∀ row ∈ compute_distance_matrix geod locations, row.length = locations.length) ∧
    (∀ i j, getEntry (compute_distance_matrix geod locations) i j =
        getEntry (compute_distance_matrix geod locations) j i) ∧
    (∀ i, getEntry (compute_distance_matrix geod locations) i i = 0) :=
  MatP_compute_distance_matrix geod hg locations

/-- Witness for C9 at the concrete metric `geodEx` and two concrete
waypoints. -/
theorem compute_distance_matrix_spec_witness :
    (∀ p : Point, geodEx p p = 0) ∧
    (∀ i j, getEntry (compute_distance_matrix geodEx [(0, 0), (3, 4)]) i j =
        getEntry (compute_distance_matrix geodEx [(0, 0), (3, 4)]) j i) :=
  ⟨fun p => by simp [geodEx],
    (compute_distance_matrix_spec geodEx (fun p => by simp [geodEx])
      [(0, 0), (3, 4)]).2.2.1⟩

/-- C10: `geocode_address` returns `None` exactly when the response
status is not 200 or the `features` array is empty; otherwise it returns
the triple of the address, the latitude read from position 1 of the first
feature's coordinate pair, and the longitude read from position 0. -/
theorem geocode_address_spec (address : String) (resp : GeoResponse) :
    (geocode_address address resp = none ↔
      resp.status_code ≠ 200 ∨ resp.features = []) ∧
    (∀ f rest, resp.status_code = 200 → resp.features = f :: rest →
      geocode_address address resp =
        some (address, f.coordinates.2, f.coordinates.1)) := by
  constructor
  · constructor
    · intro h
      by_cases h200 : resp.status_code = 200
      · cases hf : resp.features with
        | nil => exact Or.inr rfl
        | cons f rest => simp [geocode_address, h200, hf] at h
      · exact Or.inl h200
    · intro h
      rcases h with h | h
      · simp [geocode_address, h]
      · by_cases h200 : resp.status_code = 200 <;> simp [geocode_address, h, h200]
  · intro f rest h200 hf
    simp [geocode_address, h200, hf]

/-- Witness for C10: a 200 response with one feature at longitude 3 and
latitude 4 geocodes to `(address, 4, 3)`. -/
theorem geocode_address_spec_witness :
    geocode_address "a" ⟨200, [⟨(3, 4)⟩]⟩ = some ("a", 4, 3) :=
  (geocode_address_spec "a" ⟨200, [⟨(3, 4)⟩]⟩).2 ⟨(3, 4)⟩ [] rfl rfl

/-! ### Solver run lemmas -/

section Solver

variable (dist : Point → Point → ℚ) (pexp : ℚ → ℚ) (locations : List Point)
  (num_locations : Nat) (rnd : Oracle) (temperature cooling_rate : ℚ)

theorem sa_run_zero :
    sa_run dist pexp locations num_locations rnd temperature cooling_rate 0 =
      sa_init dist locations num_locations rnd := by
  unfold sa_run
  cases sa_init dist locations num_locations rnd <;> rfl

theorem sa_loop_succ (t k : Nat) (s : SAState) :
    sa_loop dist pexp locations num_locations rnd temperature cooling_rate t (k + 1) s =
      match sa_loop dist pexp locations num_locations rnd temperature cooling_rate t k s with
      | .error e => .error e
      | .ok s' =>
          sa_step dist pexp locations num_locations rnd temperature cooling_rate (t + k) s' := by
  induction k generalizing t s with
  | zero =>
      show (match sa_step dist pexp locations num_locations rnd temperature cooling_rate t s with
        | Except.error e => Except.error e
        | Except.ok s1 =>
            sa_loop dist pexp locations num_locations rnd temperature cooling_rate (t + 1) 0 s1) = _
      cases h : sa_step dist pexp locations num_locations rnd temperature cooling_rate t s with
      | error e => simp [sa_loop, h]
      | ok s1 => simp [sa_loop, h]
  | succ k ih =>
      show (match sa_step dist pexp locations num_locations rnd temperature cooling_rate t s with
        | Except.error e => Except.error e
        | Except.ok s1 =>
            sa_loop dist pexp locations num_locations rnd temperature cooling_rate (t + 1) (k + 1) s1) = _
      cases h : sa_step dist pexp locations num_locations rnd temperature cooling_rate t s with
      | error e => simp [sa_loop, h]
      | ok s1 =>
          have hL : sa_loop dist pexp locations num_locations rnd temperature cooling_rate
              t (k + 1) s =
              sa_loop dist pexp locations num_locations rnd temperature cooling_rate
                (t + 1) k s1 := by
            show (match sa_step dist pexp locations num_locations rnd temperature cooling_rate t s with
              | Except.error e => Except.error e
              | Except.ok s' =>
                  sa_loop dist pexp locations num_locations rnd temperature cooling_rate (t + 1) k s') = _
            rw [h]
          show sa_loop dist pexp locations num_locations rnd temperature cooling_rate
              (t + 1) (k + 1) s1 =
            match sa_loop dist pexp locations num_locations rnd temperature cooling_rate t (k + 1) s with
            | Except.error e => Except.error e
            | Except.ok s' =>
                sa_step dist pexp locations num_locations rnd temperature cooling_rate (t + (k + 1)) s'
          rw [hL, ih (t + 1) s1]
          have harith : t + 1 + k = t + (k + 1) := by omega
          rw [harith]

theorem sa_run_succ (k : Nat) :
    sa_run dist pexp locations num_locations rnd temperature cooling_rate (k + 1) =
      match sa_run dist pexp locations num_locations rnd temperature cooling_rate k with
      | .error e => .error e
      | .ok s =>
          sa_step dist pexp locations num_locations rnd temperature cooling_rate k s := by
  unfold sa_run
  cases h : sa_init dist locations num_locations rnd with
  | error e => rfl
  | ok s0 =>
      have := sa_loop_succ dist pexp locations num_locations rnd temperature cooling_rate 0 k s0
      simpa using this

theorem sa_run_ok_of_le (j k : Nat) :
    j ≤ k →
    ∀ s, sa_run dist pexp locations num_locations rnd temperature cooling_rate k = .ok s →
    ∃ sj, sa_run dist pexp locations num_locations rnd temperature cooling_rate j = .ok sj := by
  induction k with
  | zero =>
      intro hj s h
      have hj0 : j = 0 := by omega
      exact hj0 ▸ ⟨s, h⟩
  | succ k ih =>
      intro hj s h
      rw [sa_run_succ] at h
      cases hk : sa_run dist pexp locations num_locations rnd temperature cooling_rate k with
      | error e => rw [hk] at h; exact absurd h (by simp)
      | ok sk =>
          rw [hk] at h
          rcases Nat.lt_or_ge j (k + 1) with hlt | hge
          · exact ih (by omega) sk hk
          · have hj1 : j = k + 1 := by omega
            subst hj1
            exact ⟨s, by rw [sa_run_succ, hk]; exact h⟩

/-- Full description of one successful loop iteration: the accepted or
rejected proposal, and the best-so-far update. -/
theorem sa_step_anatomy (t : Nat) (s s' : SAState)
    (h : sa_step dist pexp locations num_locations rnd temperature cooling_rate t s = .ok s') :
    4 ≤ num_locations ∧
    ((s'.current_solution = sa_proposed num_locations rnd t s.current_solution ∧
        s'.current_distance = solution_distance dist locations s'.current_solution) ∨
      (s'.current_solution = s.current_solution ∧
        s'.current_distance = s.current_distance)) ∧
    ((s'.best_solution = s'.current_solution ∧ s'.best_distance = s'.current_distance ∧
        s'.current_distance < s.best_distance) ∨
      (s'.best_solution = s.best_solution ∧ s'.best_distance = s.best_distance ∧
        s.best_distance ≤ s'.current_distance)) := by
  unfold sa_step at h
  by_cases hg : num_locations - 2 < 2
  · rw [if_pos hg] at h
    exact absurd h (by simp)
  · rw [if_neg hg] at h
    refine ⟨by omega, ?_⟩
    cases hacc : sa_accept pexp
        (solution_distance dist locations (sa_proposed num_locations rnd t s.current_solution) -
          s.current_distance)
        (temperature * cooling_rate ^ t) (rnd.uniform s.draws) with
    | error e =>
        rw [hacc] at h
        exact absurd h (by simp)
    | ok ad =>
        obtain ⟨acc, drew⟩ := ad
        rw [hacc] at h
        simp only [Except.ok.injEq] at h
        subst h
        unfold sa_update
        cases acc with
        | true =>
            simp only [reduceIte]
            split <;> rename_i hlt <;> simp_all
        | false =>
            simp only [Bool.false_eq_true, if_false]
            split <;> rename_i hlt
            · exact ⟨Or.inr ⟨rfl, rfl⟩, Or.inl ⟨rfl, rfl, hlt⟩⟩
            · exact ⟨Or.inr ⟨rfl, rfl⟩, Or.inr ⟨rfl, rfl, le_of_not_lt hlt⟩⟩

theorem sa_init_ok (hne : locations ≠ []) :
    sa_init dist locations num_locations rnd = .ok
      ⟨sa_initial num_locations rnd,
        solution_distance dist locations (sa_initial num_locations rnd),
        sa_initial num_locations rnd,
        solution_distance dist locations (sa_initial num_locations rnd), 0⟩ := by
  unfold sa_init
  cases locations with
  | nil => exact absurd rfl hne
  | cons p rest => rfl

theorem sa_loop_inv (P : SAState → Prop)
    (hstep : ∀ t s s', sa_step dist pexp locations num_locations rnd temperature cooling_rate t s = .ok s' → P s → P s') :
    ∀ t k s s', sa_loop dist pexp locations num_locations rnd temperature cooling_rate t k s = .ok s' → P s → P s' := by
  intro t k
  induction k generalizing t with
  | zero =>
      intro s s' h hP
      simp only [sa_loop, Except.ok.injEq] at h
      exact h ▸ hP
  | succ k ih =>
      intro s s' h hP
      simp only [sa_loop] at h
      cases hs : sa_step dist pexp locations num_locations rnd temperature cooling_rate t s with
      | error e => rw [hs] at h; exact absurd h (by simp)
      | ok s1 =>
          rw [hs] at h
          exact ih (t + 1) s1 s' h (hstep t s s1 hs hP)

theorem sa_run_inv (P : SAState → Prop)
    (hstep : ∀ t s s', sa_step dist pexp locations num_locations rnd temperature cooling_rate t s = .ok s' → P s → P s')
    (k : Nat) (s0 sf : SAState)
    (hinit : sa_init dist locations num_locations rnd = .ok s0) (hP : P s0)
    (h : sa_run dist pexp locations num_locations rnd temperature cooling_rate k = .ok sf) :
    P sf := by
  unfold sa_run at h
  rw [hinit] at h
  exact sa_loop_inv dist pexp locations num_locations rnd temperature cooling_rate P hstep 0 k s0 sf h hP

end Solver

/-! ### Swap and permutation lemmas -/

theorem getD_eq_getElem {α : Type*} (l : List α) (i : Nat) (d : α) (h : i < l.length) :
    l.getD i d = l[i] := by
  rw [List.getD_eq_getElem?_getD, List.getElem?_eq_getElem h]
  rfl

theorem count_set_add (l : List Nat) (i v x : Nat) (h : i < l.length) :
    (l.set i v).count x + (if l.getD i 0 = x then 1 else 0) =
      l.count x + (if v = x then 1 else 0) := by
  rw [getD_eq_getElem l i 0 h]
  have hd : l = l.take i ++ l[i] :: l.drop (i + 1) := by
    conv_lhs => rw [← List.take_append_drop i l]
    congr 1
    exact List.drop_eq_getElem_cons h
  rw [List.set_eq_take_cons_drop v h]
  conv_rhs => rw [hd]
  simp only [List.count_append, List.count_cons, beq_iff_eq]
  omega

theorem swapAt_perm (l : List Nat) (i j : Nat) (hi : i < l.length) (hj : j < l.length) :
    (swapAt l i j).Perm l := by
  rw [List.perm_iff_count]
  intro x
  unfold swapAt
  have hj' : j < (l.set i (l.getD j 0)).length := by simpa using hj
  have e1 := count_set_add l i (l.getD j 0) x hi
  have e2 := count_set_add (l.set i (l.getD j 0)) j (l.getD i 0) x hj'
  rw [getD_set, ite_self] at e2
  omega

theorem swapAt_length (l : List Nat) (i j : Nat) :
    (swapAt l i j).length = l.length := by
  simp [swapAt]

theorem swapAt_head? (l : List Nat) (i j : Nat) (hi : 1 ≤ i) (hj : 1 ≤ j) :
    (swapAt l i j).head? = l.head? := by
  unfold swapAt
  rw [List.head?_eq_getElem?, List.head?_eq_getElem?,
    List.getElem?_set_ne (by omega), List.getElem?_set_ne (by omega)]

theorem swapAt_getLast? (l : List Nat) (i j : Nat)
    (hi : i + 1 < l.length) (hj : j + 1 < l.length) :
    (swapAt l i j).getLast? = l.getLast? := by
  unfold swapAt
  rw [List.getLast?_eq_getElem?, List.getLast?_eq_getElem?]
  simp only [List.length_set]
  rw [List.getElem?_set_ne (by omega), List.getElem?_set_ne (by omega)]

theorem samplePair_bounds (n a b : Nat) (h4 : 4 ≤ n) :
    1 ≤ (samplePair n a b).1 ∧ (samplePair n a b).1 ≤ n - 2 ∧
      1 ≤ (samplePair n a b).2 ∧ (samplePair n a b).2 ≤ n - 2 ∧
      (samplePair n a b).1 ≠ (samplePair n a b).2 := by
  unfold samplePair
  have h1 : a % (n - 2) < n - 2 := Nat.mod_lt _ (by omega)
  have h2 : b % (n - 3) < n - 3 := Nat.mod_lt _ (by omega)
  dsimp only
  split <;> rename_i hlt
  · exact ⟨by omega, by omega, by omega, by omega, by omega⟩
  · exact ⟨by omega, by omega, by omega, by omega, by omega⟩

theorem sa_initial_perm (n : Nat) (hn : 2 ≤ n) (rnd : Oracle)
    (hsh : rnd.shuffled.Perm (List.range (n - 2))) :
    (sa_initial n rnd).Perm (List.range n) := by
  have hr : List.range n = 0 :: ((List.range (n - 2)).map (· + 1) ++ [n - 1]) := by
    conv_lhs => rw [show n = n - 2 + 1 + 1 by omega]
    rw [List.range_succ, List.range_succ_eq_map]
    have he : n - 2 + 1 = n - 1 := by omega
    simp [he, Nat.succ_eq_add_one]
  rw [hr]
  exact List.Perm.cons 0 (List.Perm.append_right _ (hsh.map _))

/-! ### Claim theorems: solver invariants -/

/-- C4: in fixed-endpoint mode, whenever the solver returns, the index
tour underlying the result keeps index 0 at the first position and index
`n - 1` at the last position — and the same holds for the current
solution after every iteration, since the sampled swap positions lie in
`[1, n-2]` and never move an endpoint. -/
theorem tsp_solver_fixed_endpoints
    (dist : Point → Point → ℚ) (pexp : ℚ → ℚ) (locations : List Point)
    (rnd : Oracle) (temperature cooling_rate : ℚ) (k : Nat) (s : SAState)
    (hn : 2 ≤ locations.length)
    (hsh : rnd.shuffled.length = locations.length - 2)
    (h : sa_run dist pexp locations locations.length rnd temperature cooling_rate k = .ok s) :
    s.best_solution.head? = some 0 ∧
      s.best_solution.getLast? = some (locations.length - 1) ∧
      s.current_solution.head? = some 0 ∧
      s.current_solution.getLast? = some (locations.length - 1) := by
  have hne : locations ≠ [] := by
    intro he
    rw [he] at hn
    simp at hn
  have hinit := sa_init_ok dist locations locations.length rnd hne
  have hi_len : (sa_initial locations.length rnd).length = locations.length := by
    simp [sa_initial]
    omega
  have hi_head : (sa_initial locations.length rnd).head? = some 0 := rfl
  have hi_last : (sa_initial locations.length rnd).getLast? = some (locations.length - 1) := by
    show (0 :: (rnd.shuffled.map (· + 1) ++ [locations.length - 1])).getLast? = _
    rw [show (0 :: (rnd.shuffled.map (· + 1) ++ [locations.length - 1])) =
        (0 :: rnd.shuffled.map (· + 1)) ++ [locations.length - 1] by simp]
    exact List.getLast?_concat _
  have hstep : ∀ t s1 s2,
      sa_step dist pexp locations locations.length rnd temperature cooling_rate t s1 = .ok s2 →
      (s1.current_solution.length = locations.length ∧
        s1.current_solution.head? = some 0 ∧
        s1.current_solution.getLast? = some (locations.length - 1) ∧
        s1.best_solution.length = locations.length ∧
        s1.best_solution.head? = some 0 ∧
        s1.best_solution.getLast? = some (locations.length - 1)) →
      (s2.current_solution.length = locations.length ∧
        s2.current_solution.head? = some 0 ∧
        s2.current_solution.getLast? = some (locations.length - 1) ∧
        s2.best_solution.length = locations.length ∧
        s2.best_solution.head? = some 0 ∧
        s2.best_solution.getLast? = some (locations.length - 1)) := by
    intro t s1 s2 hs hP
    obtain ⟨hP1, hP2, hP3, hP4, hP5, hP6⟩ := hP
    obtain ⟨h4n, hcur, hbest⟩ :=
      sa_step_anatomy dist pexp locations locations.length rnd temperature cooling_rate t s1 s2 hs
    obtain ⟨hi1, hi2, hj1, hj2, hij⟩ :=
      samplePair_bounds locations.length (rnd.sampleA t) (rnd.sampleB t) h4n
    have hcl : s2.current_solution.length = locations.length := by
      rcases hcur with ⟨hc, _⟩ | ⟨hc, _⟩
      · rw [hc]; unfold sa_proposed; rw [swapAt_length]; exact hP1
      · rw [hc]; exact hP1
    have hch : s2.current_solution.head? = some 0 := by
      rcases hcur with ⟨hc, _⟩ | ⟨hc, _⟩
      · rw [hc]; unfold sa_proposed; rw [swapAt_head? _ _ _ hi1 hj1]; exact hP2
      · rw [hc]; exact hP2
    have hcla : s2.current_solution.getLast? = some (locations.length - 1) := by
      rcases hcur with ⟨hc, _⟩ | ⟨hc, _⟩
      · rw [hc]; unfold sa_proposed
        rw [swapAt_getLast? _ _ _ (by rw [hP1]; omega) (by rw [hP1]; omega)]
        exact hP3
      · rw [hc]; exact hP3
    rcases hbest with ⟨hb1, _, _⟩ | ⟨hb1, _, _⟩
    · exact ⟨hcl, hch, hcla, by rw [hb1]; exact hcl, by rw [hb1]; exact hch,
        by rw [hb1]; exact hcla⟩
    · exact ⟨hcl, hch, hcla, by rw [hb1]; exact hP4, by rw [hb1]; exact hP5,
        by rw [hb1]; exact hP6⟩
  obtain ⟨c1, c2, c3, c4, c5, c6⟩ :=
    sa_run_inv dist pexp locations locations.length rnd temperature cooling_rate
      (fun st => st.current_solution.length = locations.length ∧
        st.current_solution.head? = some 0 ∧
        st.current_solution.getLast? = some (locations.length - 1) ∧
        st.best_solution.length = locations.length ∧
        st.best_solution.head? = some 0 ∧
        st.best_solution.getLast? = some (locations.length - 1))
      hstep k _ s hinit ⟨hi_len, hi_head, hi_last, hi_len, hi_head, hi_last⟩ h
  exact ⟨c5, c6, c2, c3⟩

/-- Evaluation of a concrete one-iteration run with four waypoints at
the default configuration: the proposed swap `(1, 2)` has `delta = 0`
(constant metric), the uniform `0` is drawn and compared, the proposal is
rejected, and the state ends unchanged except for one consumed draw. -/
theorem run4_one :
    sa_run distConst pexp0 locs4 locs4.length oracle4 10000 (95 / 100) 1 =
      .ok ⟨[0, 1, 2, 3], 3, [0, 1, 2, 3], 3, 1⟩ := by
  norm_num [sa_run_succ, sa_run_zero, sa_init, sa_initial, sa_step, sa_accept, sa_update,
    sa_proposed, samplePair, swapAt, solution_distance, distConst, locs4, oracle4, pexp0]

/-- Witness for C4: a concrete one-iteration run with four waypoints. -/
theorem tsp_solver_fixed_endpoints_witness :
    (⟨[0, 1, 2, 3], 3, [0, 1, 2, 3], 3, 1⟩ : SAState).best_solution.head? = some 0 ∧
      (⟨[0, 1, 2, 3], 3, [0, 1, 2, 3], 3, 1⟩ : SAState).best_solution.getLast? =
        some (locs4.length - 1) ∧
      (⟨[0, 1, 2, 3], 3, [0, 1, 2, 3], 3, 1⟩ : SAState).current_solution.head? = some 0 ∧
      (⟨[0, 1, 2, 3], 3, [0, 1, 2, 3], 3, 1⟩ : SAState).current_solution.getLast? =
        some (locs4.length - 1) :=
  tsp_solver_fixed_endpoints distConst pexp0 locs4 oracle4 10000 (95 / 100) 1
    ⟨[0, 1, 2, 3], 3, [0, 1, 2, 3], 3, 1⟩ (by decide) (by decide) run4_one

/-- C5: whenever the solver returns, the index sequence underlying the
returned route (and the current solution) is a permutation of
`[0, n)`. -/
theorem tsp_solver_permutation
    (dist : Point → Point → ℚ) (pexp : ℚ → ℚ) (locations : List Point)
    (rnd : Oracle) (temperature cooling_rate : ℚ) (k : Nat) (s : SAState)
    (hn : 2 ≤ locations.length)
    (hsh : rnd.shuffled.Perm (List.range (locations.length - 2)))
    (h : sa_run dist pexp locations locations.length rnd temperature cooling_rate k = .ok s) :
    s.best_solution.Perm (List.range locations.length) ∧
      s.current_solution.Perm (List.range locations.length) := by
  have hne : locations ≠ [] := by
    intro he
    rw [he] at hn
    simp at hn
  have hinit := sa_init_ok dist locations locations.length rnd hne
  have hstep : ∀ t s1 s2,
      sa_step dist pexp locations locations.length rnd temperature cooling_rate t s1 = .ok s2 →
      (s1.current_solution.Perm (List.range locations.length) ∧
        s1.best_solution.Perm (List.range locations.length)) →
      (s2.current_solution.Perm (List.range locations.length) ∧
        s2.best_solution.Perm (List.range locations.length)) := by
    intro t s1 s2 hs hP
    obtain ⟨hP1, hP2⟩ := hP
    obtain ⟨h4n, hcur, hbest⟩ :=
      sa_step_anatomy dist pexp locations locations.length rnd temperature cooling_rate t s1 s2 hs
    obtain ⟨hi1, hi2, hj1, hj2, hij⟩ :=
      samplePair_bounds locations.length (rnd.sampleA t) (rnd.sampleB t) h4n
    have hlen : s1.current_solution.length = locations.length := by
      have hl := hP1.length_eq
      simpa using hl
    have hcp : s2.current_solution.Perm (List.range locations.length) := by
      rcases hcur with ⟨hc, _⟩ | ⟨hc, _⟩
      · rw [hc]
        unfold sa_proposed
        exact (swapAt_perm _ _ _ (by omega) (by omega)).trans hP1
      · rw [hc]; exact hP1
    rcases hbest with ⟨hb1, _, _⟩ | ⟨hb1, _, _⟩
    · exact ⟨hcp, by rw [hb1]; exact hcp⟩
    · exact ⟨hcp, by rw [hb1]; exact hP2⟩
  obtain ⟨c1, c2⟩ :=
    sa_run_inv dist pexp locations locations.length rnd temperature cooling_rate
      (fun st => st.current_solution.Perm (List.range locations.length) ∧
        st.best_solution.Perm (List.range locations.length))
      hstep k _ s hinit
      ⟨sa_initial_perm locations.length hn rnd hsh, sa_initial_perm locations.length hn rnd hsh⟩ h
  exact ⟨c2, c1⟩

/-- Witness for C5: the same concrete one-iteration run. -/
theorem tsp_solver_permutation_witness :
    (⟨[0, 1, 2, 3], 3, [0, 1, 2, 3], 3, 1⟩ : SAState).best_solution.Perm
        (List.range locs4.length) ∧
      (⟨[0, 1, 2, 3], 3, [0, 1, 2, 3], 3, 1⟩ : SAState).current_solution.Perm
        (List.range locs4.length) :=
  tsp_solver_permutation distConst pexp0 locs4 oracle4 10000 (95 / 100) 1
    ⟨[0, 1, 2, 3], 3, [0, 1, 2, 3], 3, 1⟩ (by decide) (by decide) run4_one

theorem sa_step_best_le
    (dist : Point → Point → ℚ) (pexp : ℚ → ℚ) (locations : List Point)
    (num_locations : Nat) (rnd : Oracle) (temperature cooling_rate : ℚ)
    (t : Nat) (s s' : SAState)
    (hs : sa_step dist pexp locations num_locations rnd temperature cooling_rate t s = .ok s') :
    s'.best_distance ≤ s.best_distance ∧ s'.best_distance ≤ s'.current_distance ∧
      (s'.best_distance = s.best_distance ∨ s'.best_distance = s'.current_distance) := by
  obtain ⟨-, -, hbest⟩ :=
    sa_step_anatomy dist pexp locations num_locations rnd temperature cooling_rate t s s' hs
  rcases hbest with ⟨h1, h2, h3⟩ | ⟨h1, h2, h3⟩
  · exact ⟨by rw [h2]; exact le_of_lt h3, le_of_eq h2, Or.inr h2⟩
  · exact ⟨le_of_eq h2, by rw [h2]; exact h3, Or.inl h2⟩

/-- C6: the tracked `best_distance` never increases over the iteration
count: the final best is at most every earlier iteration's best and at
most every observed `current_distance`, and it equals the
`current_distance` observed at some iteration (i.e. it is exactly the
minimum current length seen over the run). -/
theorem sa_run_best_monotone
    (dist : Point → Point → ℚ) (pexp : ℚ → ℚ) (locations : List Point)
    (num_locations : Nat) (rnd : Oracle) (temperature cooling_rate : ℚ)
    (k : Nat) (s : SAState)
    (h : sa_run dist pexp locations num_locations rnd temperature cooling_rate k = .ok s) :
    (∀ j, j ≤ k → ∀ sj,
        sa_run dist pexp locations num_locations rnd temperature cooling_rate j = .ok sj →
        s.best_distance ≤ sj.best_distance ∧ s.best_distance ≤ sj.current_distance) ∧
    (∃ j, j ≤ k ∧ ∃ sj,
        sa_run dist pexp locations num_locations rnd temperature cooling_rate j = .ok sj ∧
        s.best_distance = sj.current_distance) := by
  induction k generalizing s with
  | zero =>
      have hbc : s.best_distance = s.current_distance := by
        rw [sa_run_zero] at h
        unfold sa_init at h
        cases locations with
        | nil => exact absurd h (by simp)
        | cons p rest =>
            simp only [Except.ok.injEq] at h
            rw [← h]
      constructor
      · intro j hj sj hrun
        have hj0 : j = 0 := by omega
        subst hj0
        have hss : s = sj := by
          have hh := h.symm.trans hrun
          simpa using hh
        rw [← hss]
        exact ⟨le_refl _, le_of_eq hbc⟩
      · exact ⟨0, le_refl 0, s, h, hbc⟩
  | succ k ih =>
      rw [sa_run_succ] at h
      cases hk : sa_run dist pexp locations num_locations rnd temperature cooling_rate k with
      | error e => rw [hk] at h; exact absurd h (by simp)
      | ok sk =>
          rw [hk] at h
          obtain ⟨hmono, hle, hdisj⟩ :=
            sa_step_best_le dist pexp locations num_locations rnd temperature cooling_rate k sk s h
          obtain ⟨ih1, ih2⟩ := ih sk hk
          constructor
          · intro j hj sj hrun
            rcases Nat.lt_or_ge j (k + 1) with hlt | hge
            · have hij := ih1 j (by omega) sj hrun
              exact ⟨le_trans hmono hij.1, le_trans hmono hij.2⟩
            · have hj1 : j = k + 1 := by omega
              subst hj1
              rw [sa_run_succ, hk] at hrun
              have hss : s = sj := by
                have hh := h.symm.trans hrun
                simpa using hh
              rw [← hss]
              exact ⟨le_refl _, hle⟩
          · rcases hdisj with hd | hd
            · obtain ⟨j, hj, sj, hrun, heq⟩ := ih2
              exact ⟨j, by omega, sj, hrun, hd.trans heq⟩
            · exact ⟨k + 1, le_refl _, s, by rw [sa_run_succ, hk]; exact h, hd⟩

/-- Witness for C6: the concrete one-iteration run. -/
theorem sa_run_best_monotone_witness :
    (∀ j, j ≤ 1 → ∀ sj,
        sa_run distConst pexp0 locs4 locs4.length oracle4 10000 (95 / 100) j = .ok sj →
        (⟨[0, 1, 2, 3], 3, [0, 1, 2, 3], 3, 1⟩ : SAState).best_distance ≤ sj.best_distance ∧
          (⟨[0, 1, 2, 3], 3, [0, 1, 2, 3], 3, 1⟩ : SAState).best_distance ≤
            sj.current_distance) ∧
    (∃ j, j ≤ 1 ∧ ∃ sj,
        sa_run distConst pexp0 locs4 locs4.length oracle4 10000 (95 / 100) j = .ok sj ∧
        (⟨[0, 1, 2, 3], 3, [0, 1, 2, 3], 3, 1⟩ : SAState).best_distance =
          sj.current_distance) :=
  sa_run_best_monotone distConst pexp0 locs4 locs4.length oracle4 10000 (95 / 100) 1
    ⟨[0, 1, 2, 3], 3, [0, 1, 2, 3], 3, 1⟩ run4_one

/-! ### Claim theorems: metric use and error semantics -/

/-- An iteration whose step raises aborts the whole remaining loop with
that error. -/
theorem sa_loop_error (dist : Point → Point → ℚ) (pexp : ℚ → ℚ) (locations : List Point)
    (num_locations : Nat) (rnd : Oracle) (temperature cooling_rate : ℚ)
    (t k : Nat) (s : SAState) (e : PyError) (hk : 1 ≤ k)
    (hs : sa_step dist pexp locations num_locations rnd temperature cooling_rate t s = .error e) :
    sa_loop dist pexp locations num_locations rnd temperature cooling_rate t k s = .error e := by
  cases k with
  | zero => omega
  | succ k' =>
      show (match sa_step dist pexp locations num_locations rnd temperature cooling_rate t s with
        | Except.error e => Except.error e
        | Except.ok s' =>
            sa_loop dist pexp locations num_locations rnd temperature cooling_rate (t + 1) k' s') = _
      rw [hs]

/-- C1 (amended): the solver never reads `distance_matrix` — its result
is invariant under arbitrary changes to that field — and every tour
length it tracks (`current_distance`, `best_distance`) is computed by the
metric `dist` hard-coded inside the solver applied to the raw
coordinates, not by matrix lookups. -/
theorem tsp_solver_ignores_distance_matrix
    (dist : Point → Point → ℚ) (pexp : ℚ → ℚ) (L : List Point) (n : Nat)
    (M1 M2 : List (List ℚ)) (rnd : Oracle) (iterations : Int)
    (temperature cooling_rate : ℚ) :
    tsp_solver dist pexp ⟨L, n, M1⟩ rnd iterations temperature cooling_rate =
      tsp_solver dist pexp ⟨L, n, M2⟩ rnd iterations temperature cooling_rate ∧
    (∀ k s, sa_run dist pexp L n rnd temperature cooling_rate k = .ok s →
      s.current_distance = solution_distance dist L s.current_solution ∧
      s.best_distance = solution_distance dist L s.best_solution) := by
  refine ⟨rfl, ?_⟩
  intro k s h
  have hstep : ∀ t s1 s2,
      sa_step dist pexp L n rnd temperature cooling_rate t s1 = .ok s2 →
      (s1.current_distance = solution_distance dist L s1.current_solution ∧
        s1.best_distance = solution_distance dist L s1.best_solution) →
      (s2.current_distance = solution_distance dist L s2.current_solution ∧
        s2.best_distance = solution_distance dist L s2.best_solution) := by
    intro t s1 s2 hs hP
    obtain ⟨-, hcur, hbest⟩ :=
      sa_step_anatomy dist pexp L n rnd temperature cooling_rate t s1 s2 hs
    have hc2 : s2.current_distance = solution_distance dist L s2.current_solution := by
      rcases hcur with ⟨hc, hd⟩ | ⟨hc, hd⟩
      · exact hd
      · rw [hd, hc]; exact hP.1
    rcases hbest with ⟨hb1, hb2, -⟩ | ⟨hb1, hb2, -⟩
    · exact ⟨hc2, by rw [hb2, hb1]; exact hc2⟩
    · exact ⟨hc2, by rw [hb2, hb1]; exact hP.2⟩
  unfold sa_run at h
  cases hi : sa_init dist L n rnd with
  | error e => rw [hi] at h; exact absurd h (by simp)
  | ok s0 =>
      rw [hi] at h
      have hP0 : s0.current_distance = solution_distance dist L s0.current_solution ∧
          s0.best_distance = solution_distance dist L s0.best_solution := by
        unfold sa_init at hi
        cases L with
        | nil => exact absurd hi (by simp)
        | cons p rest =>
            simp only [Except.ok.injEq] at hi
            rw [← hi]
            exact ⟨rfl, rfl⟩
      exact sa_loop_inv dist pexp L n rnd temperature cooling_rate
        (fun st => st.current_distance = solution_distance dist L st.current_solution ∧
          st.best_distance = solution_distance dist L st.best_solution)
        hstep 0 k s0 s h hP0

/-- Evaluation of the trivial two-waypoint zero-iteration run: the tour
is `[0, 1]` and the tracked length is the internal metric's value `5`. -/
theorem run2_zero :
    sa_run distEx pexp0 locs2 2 oracleEx 10000 (95 / 100) 0 =
      .ok ⟨[0, 1], 5, [0, 1], 5, 0⟩ := by
  norm_num [sa_run_zero, sa_init, sa_initial, solution_distance, distEx, locs2, oracleEx,
    Prod.ext_iff]

/-- Witness for the amended C1, at the two sample waypoints: the solver
output is the same whether the data model carries the geodesic matrix or
an empty one, and the tracked length is the internal metric's value. -/
theorem tsp_solver_ignores_distance_matrix_witness :
    tsp_solver distEx pexp0 ⟨locs2, 2, [[0, 555], [555, 0]]⟩ oracleEx 0 10000 (95 / 100) =
      tsp_solver distEx pexp0 ⟨locs2, 2, []⟩ oracleEx 0 10000 (95 / 100) ∧
    (⟨[0, 1], 5, [0, 1], 5, 0⟩ : SAState).current_distance =
      solution_distance distEx locs2 (⟨[0, 1], 5, [0, 1], 5, 0⟩ : SAState).current_solution :=
  ⟨(tsp_solver_ignores_distance_matrix distEx pexp0 locs2 2 [[0, 555], [555, 0]] []
      oracleEx 0 10000 (95 / 100)).1,
    ((tsp_solver_ignores_distance_matrix distEx pexp0 locs2 2 [[0, 555], [555, 0]] []
      oracleEx 0 10000 (95 / 100)).2 0 ⟨[0, 1], 5, [0, 1], 5, 0⟩ run2_zero).1⟩

/-- Counterexample to C1 as stated: on the data model the application
builds for the waypoints `(0,0)` and `(3,4)` (whose geodesic matrix entry
is `geodEx`'s 555), the solver's tracked tour length for the returned
tour `[0, 1]` is `5` — the exact Euclidean distance computed by the
metric hard-coded inside the solver — and not the matrix value `555`:
the minimized length is not taken from the data model's
DistanceMatrix. -/
theorem tsp_solver_metric_counterexample :
    sa_run distEx pexp0 dmEx.locations dmEx.num_locations oracleEx 10000 (95 / 100) 0 =
      .ok ⟨[0, 1], 5, [0, 1], 5, 0⟩ ∧
    matrix_route_length dmEx.distance_matrix [0, 1] = 555 ∧
    (5 : ℚ) ≠ 555 := by
  refine ⟨?_, ?_, by norm_num⟩
  · norm_num [dmEx, create_data_model, locs2, sa_run_zero, sa_init, sa_initial,
      solution_distance, distEx, oracleEx, Prod.ext_iff]
  · norm_num [matrix_route_length, dmEx, create_data_model, compute_distance_matrix, locs2,
      geodEx, setEntry, getEntry, List.range_succ, List.range'_succ, Prod.ext_iff,
      List.replicate_succ, List.set_cons_succ, List.set_cons_zero]

/-- C2 (code bug): with exactly two waypoints the solver does not return
the trivial tour: under any positive iteration count the first loop
iteration calls `random2.sample(range(1, 1), 2)`, sampling two elements
from an empty population, which raises ValueError.  Only a zero (or
negative) iteration count reaches the trivial return. -/
theorem tsp_solver_two_waypoints_raises :
    tsp_solver distEx pexp0 dmEx oracleEx 1000 10000 (95 / 100) = .error .valueError ∧
    tsp_solver distEx pexp0 dmEx oracleEx 0 10000 (95 / 100) = .ok [(0, 0), (3, 4)] := by
  have hne : dmEx.locations ≠ [] := by simp [dmEx, create_data_model, locs2]
  have hn2 : dmEx.num_locations - 2 < 2 := by norm_num [dmEx, create_data_model, locs2]
  have hstep0 : ∀ t s1, sa_step distEx pexp0 dmEx.locations dmEx.num_locations oracleEx
      10000 (95 / 100) t s1 = .error .valueError := by
    intro t s1
    unfold sa_step
    rw [if_pos hn2]
  constructor
  · have hrun : sa_run distEx pexp0 dmEx.locations dmEx.num_locations oracleEx
        10000 (95 / 100) 1000 = .error .valueError := by
      unfold sa_run
      rw [sa_init_ok distEx dmEx.locations dmEx.num_locations oracleEx hne]
      exact sa_loop_error distEx pexp0 dmEx.locations dmEx.num_locations oracleEx
        10000 (95 / 100) 0 1000 _ .valueError (by omega) (hstep0 0 _)
    unfold tsp_solver
    rw [show ((1000 : Int)).toNat = 1000 from rfl, hrun]
  · unfold tsp_solver
    rw [show ((0 : Int)).toNat = 0 from rfl, sa_run_zero,
      sa_init_ok distEx dmEx.locations dmEx.num_locations oracleEx hne]
    norm_num [dmEx, create_data_model, locs2, sa_initial, oracleEx,
      List.getD_cons_zero, List.getD_cons_succ]

/-- Counterexample to C3 as stated: with three waypoints (a waypoint
count the claim calls valid) and a perfectly valid configuration, the
run completes its pre-loop phase without error and then raises
ValueError inside the first loop iteration — a mid-run error. -/
theorem tsp_solver_midrun_error_counterexample :
    (∃ s0, sa_run distEx pexp0 locs3 3 oracle3 10000 (95 / 100) 0 = .ok s0) ∧
    sa_run distEx pexp0 locs3 3 oracle3 10000 (95 / 100) 1 = .error .valueError := by
  have hne : locs3 ≠ [] := by simp [locs3]
  constructor
  · exact ⟨_, by rw [sa_run_zero]; exact sa_init_ok distEx locs3 3 oracle3 hne⟩
  · unfold sa_run
    rw [sa_init_ok distEx locs3 3 oracle3 hne]
    refine sa_loop_error distEx pexp0 locs3 3 oracle3 10000 (95 / 100) 0 1 _ .valueError
      (by omega) ?_
    unfold sa_step
    rw [if_pos (by norm_num)]

/-- C3 (amended): the solver performs no configuration validation and
raises nothing before the loop: on any non-empty waypoint list the
pre-loop phase succeeds (even for a negative iteration count, which just
runs zero iterations and returns normally), and errors surface mid-run
instead — with at most three waypoints and at least one iteration, the
interior sampling raises inside the first loop iteration. -/
theorem tsp_solver_error_semantics
    (dist : Point → Point → ℚ) (pexp : ℚ → ℚ) (locations : List Point)
    (num_locations : Nat) (rnd : Oracle) (temperature cooling_rate : ℚ)
    (hne : locations ≠ []) :
    (sa_run dist pexp locations num_locations rnd temperature cooling_rate 0 =
      .ok ⟨sa_initial num_locations rnd,
        solution_distance dist locations (sa_initial num_locations rnd),
        sa_initial num_locations rnd,
        solution_distance dist locations (sa_initial num_locations rnd), 0⟩) ∧
    (num_locations ≤ 3 → ∀ k, 1 ≤ k →
      sa_run dist pexp locations num_locations rnd temperature cooling_rate k =
        .error .valueError) ∧
    (∀ M : List (List ℚ),
      tsp_solver dist pexp ⟨locations, num_locations, M⟩ rnd (-5) temperature cooling_rate =
        .ok ((sa_initial num_locations rnd).map (fun i => locations.getD i (0, 0)))) := by
  refine ⟨?_, ?_, ?_⟩
  · rw [sa_run_zero]
    exact sa_init_ok dist locations num_locations rnd hne
  · intro h3 k hk
    unfold sa_run
    rw [sa_init_ok dist locations num_locations rnd hne]
    refine sa_loop_error dist pexp locations num_locations rnd temperature cooling_rate
      0 k _ .valueError hk ?_
    unfold sa_step
    rw [if_pos (by omega)]
  · intro M
    unfold tsp_solver
    rw [show ((-5 : Int)).toNat = 0 from rfl]
    show (match sa_run dist pexp locations num_locations rnd temperature cooling_rate 0 with
      | Except.error e => Except.error e
      | Except.ok s => Except.ok (s.best_solution.map (fun i => locations.getD i (0, 0)))) = _
    rw [sa_run_zero, sa_init_ok dist locations num_locations rnd hne]

/-- Witness for the amended C3: the three-waypoint run raises mid-loop
after a clean pre-loop phase, for any iteration budget. -/
theorem tsp_solver_error_semantics_witness :
    sa_run distEx pexp0 locs3 3 oracle3 10000 (95 / 100) 5 = .error .valueError :=
  (tsp_solver_error_semantics distEx pexp0 locs3 3 oracle3 10000 (95 / 100)
    (by simp [locs3])).2.1 (by omega) 5 (by omega)

/-! ### Claim theorems: acceptance test -/

theorem sa_update_draws (s : SAState) (cur : List Nat) (curd : ℚ) (d : Nat) :
    (sa_update s cur curd d).draws = d := by
  unfold sa_update
  split <;> rfl

theorem sa_update_current (s : SAState) (cur : List Nat) (curd : ℚ) (d : Nat) :
    (sa_update s cur curd d).current_solution = cur := by
  unfold sa_update
  split <;> rfl

/-- A strictly improving proposal (`delta < 0`) is accepted through the
short-circuit left disjunct of
`delta < 0 or random2.random() < exp(-delta / temp)`: no uniform is
drawn, whatever the temperature. -/
theorem sa_step_improving
    (dist : Point → Point → ℚ) (pexp : ℚ → ℚ) (locations : List Point)
    (num_locations : Nat) (rnd : Oracle) (temperature cooling_rate : ℚ)
    (t : Nat) (s : SAState) (h4 : 4 ≤ num_locations)
    (hlt : solution_distance dist locations
        (sa_proposed num_locations rnd t s.current_solution) - s.current_distance < 0) :
    sa_step dist pexp locations num_locations rnd temperature cooling_rate t s =
      .ok (sa_update s (sa_proposed num_locations rnd t s.current_solution)
        (solution_distance dist locations (sa_proposed num_locations rnd t s.current_solution))
        s.draws) := by
  unfold sa_step
  rw [if_neg (by omega)]
  unfold sa_accept
  rw [if_pos hlt]
  norm_num

/-- C7 (amended): with a nonzero temperature, an iteration draws at most
one uniform: when `delta < 0` the proposal replaces the current tour and
no uniform is drawn (Python's `or` short-circuits); when `delta ≥ 0`
exactly one uniform is drawn and the proposal replaces the current tour
precisely when that uniform is below `exp(-delta / temperature)`. -/
theorem sa_step_acceptance
    (dist : Point → Point → ℚ) (pexp : ℚ → ℚ) (locations : List Point)
    (num_locations : Nat) (rnd : Oracle) (temperature cooling_rate : ℚ)
    (t : Nat) (s : SAState) (h4 : 4 ≤ num_locations)
    (htemp : temperature * cooling_rate ^ t ≠ 0) :
    (solution_distance dist locations
        (sa_proposed num_locations rnd t s.current_solution) - s.current_distance < 0 →
      ∃ s', sa_step dist pexp locations num_locations rnd temperature cooling_rate t s =
          .ok s' ∧
        s'.draws = s.draws ∧
        s'.current_solution = sa_proposed num_locations rnd t s.current_solution) ∧
    (0 ≤ solution_distance dist locations
        (sa_proposed num_locations rnd t s.current_solution) - s.current_distance →
      ∃ s', sa_step dist pexp locations num_locations rnd temperature cooling_rate t s =
          .ok s' ∧
        s'.draws = s.draws + 1 ∧
        s'.current_solution = (if rnd.uniform s.draws < pexp
            (-(solution_distance dist locations
                (sa_proposed num_locations rnd t s.current_solution) - s.current_distance) /
              (temperature * cooling_rate ^ t))
          then sa_proposed num_locations rnd t s.current_solution
          else s.current_solution)) := by
  constructor
  · intro hlt
    exact ⟨_,
      sa_step_improving dist pexp locations num_locations rnd temperature cooling_rate
        t s h4 hlt,
      sa_update_draws _ _ _ _, sa_update_current _ _ _ _⟩
  · intro hge
    have hstep : sa_step dist pexp locations num_locations rnd temperature cooling_rate t s =
        .ok (sa_update s
          (if rnd.uniform s.draws < pexp
              (-(solution_distance dist locations
                  (sa_proposed num_locations rnd t s.current_solution) - s.current_distance) /
                (temperature * cooling_rate ^ t))
            then sa_proposed num_locations rnd t s.current_solution
            else s.current_solution)
          (if rnd.uniform s.draws < pexp
              (-(solution_distance dist locations
                  (sa_proposed num_locations rnd t s.current_solution) - s.current_distance) /
                (temperature * cooling_rate ^ t))
            then solution_distance dist locations
              (sa_proposed num_locations rnd t s.current_solution)
            else s.current_distance)
          (s.draws + 1)) := by
      unfold sa_step
      rw [if_neg (by omega)]
      unfold sa_accept
      rw [if_neg (not_lt.mpr hge), if_neg htemp]
      by_cases hu : rnd.uniform s.draws < pexp
          (-(solution_distance dist locations
              (sa_proposed num_locations rnd t s.current_solution) - s.current_distance) /
            (temperature * cooling_rate ^ t))
      · simp [hu]
      · simp [hu]
    exact ⟨_, hstep, sa_update_draws _ _ _ _, sa_update_current _ _ _ _⟩

/-- Counterexample to C7 as stated: one full iteration at a strictly
positive temperature on the collinear waypoints `locsLine`, under the
solver's own metric (exactly `|Δy|` there): the proposed swap improves
the tour from 14 to 6, is accepted through the short-circuit `or`, and
the run ends having drawn zero uniforms — not the "exactly one" the
claim requires. -/
theorem sa_step_draw_count_counterexample :
    sa_run distLine pexp0 locsLine 4 oracle4 10000 (95 / 100) 1 =
      .ok ⟨[0, 2, 1, 3], 6, [0, 2, 1, 3], 6, 0⟩ ∧
    (0 : ℚ) < 10000 * (95 / 100 : ℚ) ^ (0 : Nat) := by
  constructor
  · norm_num [sa_run_succ, sa_run_zero, sa_init, sa_initial, sa_step, sa_accept, sa_update,
      sa_proposed, samplePair, swapAt, solution_distance, distLine, locsLine, oracle4, pexp0,
      List.set_cons_succ, List.set_cons_zero, List.getD_cons_zero, List.getD_cons_succ]
  · norm_num

/-- Witness for the amended C7: the improving branch of the same
concrete iteration, with `4 ≤ 4` and a nonzero temperature
discharged. -/
theorem sa_step_acceptance_witness :
    ∃ s', sa_step distLine pexp0 locsLine 4 oracle4 10000 (95 / 100) 0
        ⟨[0, 1, 2, 3], 14, [0, 1, 2, 3], 14, 0⟩ = .ok s' ∧
      s'.draws = (⟨[0, 1, 2, 3], 14, [0, 1, 2, 3], 14, 0⟩ : SAState).draws ∧
      s'.current_solution =
        sa_proposed 4 oracle4 0
          (⟨[0, 1, 2, 3], 14, [0, 1, 2, 3], 14, 0⟩ : SAState).current_solution :=
  (sa_step_acceptance distLine pexp0 locsLine 4 oracle4 10000 (95 / 100) 0
    ⟨[0, 1, 2, 3], 14, [0, 1, 2, 3], 14, 0⟩ (by omega) (by norm_num)).1
    (by norm_num [sa_proposed, samplePair, swapAt, solution_distance, distLine, locsLine,
      oracle4, List.set_cons_succ, List.set_cons_zero, List.getD_cons_zero,
      List.getD_cons_succ])

/-- C8 (amended): the code has no special case for a numerically zero
temperature.  A strictly improving proposal is still accepted (the
short-circuit avoids evaluating `exp`), but whenever the temperature is
zero and the proposal is non-improving (`delta ≥ 0`), the division
`-delta / temp` of the acceptance test raises ZeroDivisionError. -/
theorem sa_step_zero_temp
    (dist : Point → Point → ℚ) (pexp : ℚ → ℚ) (locations : List Point)
    (num_locations : Nat) (rnd : Oracle) (temperature cooling_rate : ℚ)
    (t : Nat) (s : SAState) (h4 : 4 ≤ num_locations)
    (htemp : temperature * cooling_rate ^ t = 0) :
    (solution_distance dist locations
        (sa_proposed num_locations rnd t s.current_solution) - s.current_distance < 0 →
      sa_step dist pexp locations num_locations rnd temperature cooling_rate t s =
        .ok (sa_update s (sa_proposed num_locations rnd t s.current_solution)
          (solution_distance dist locations
            (sa_proposed num_locations rnd t s.current_solution))
          s.draws)) ∧
    (0 ≤ solution_distance dist locations
        (sa_proposed num_locations rnd t s.current_solution) - s.current_distance →
      sa_step dist pexp locations num_locations rnd temperature cooling_rate t s =
        .error .zeroDivisionError) := by
  constructor
  · exact sa_step_improving dist pexp locations num_locations rnd temperature cooling_rate t s h4
  · intro hge
    unfold sa_step
    rw [if_neg (by omega)]
    unfold sa_accept
    rw [if_neg (not_lt.mpr hge), if_pos htemp]

/-- Counterexample to C8 as stated: a run whose temperature is
numerically zero from the first iteration (`temperature = 0`) and whose
first proposal has `delta = 0` raises ZeroDivisionError — the acceptance
probability is not handled specially and the "no division-by-zero fault"
guarantee fails. -/
theorem sa_step_zero_temp_counterexample :
    sa_run distConst pexp0 locs4 4 oracle4 0 (95 / 100) 1 = .error .zeroDivisionError := by
  norm_num [sa_run_succ, sa_run_zero, sa_init, sa_initial, sa_step, sa_accept, sa_update,
    sa_proposed, samplePair, swapAt, solution_distance, distConst, locs4, oracle4, pexp0,
    List.set_cons_succ, List.set_cons_zero, List.getD_cons_zero, List.getD_cons_succ]

/-- Witness for the amended C8: the non-improving branch at zero
temperature on a concrete state. -/
theorem sa_step_zero_temp_witness :
    sa_step distConst pexp0 locs4 4 oracle4 0 (95 / 100) 0
      ⟨[0, 1, 2, 3], 3, [0, 1, 2, 3], 3, 0⟩ = .error .zeroDivisionError :=
  (sa_step_zero_temp distConst pexp0 locs4 4 oracle4 0 (95 / 100) 0
    ⟨[0, 1, 2, 3], 3, [0, 1, 2, 3], 3, 0⟩ (by omega) (by norm_num)).2
    (by norm_num [sa_proposed, samplePair, swapAt, solution_distance, distConst, locs4, oracle4,
      List.set_cons_succ, List.set_cons_zero, List.getD_cons_zero, List.getD_cons_succ])

end RouteMap
